import Mathlib

/-!
Verification of the water-reminder bot (`main.py`) against its specification.

The program is a single-file Python script: at module load it reads three
environment variables (`BOT_TOKEN`, `CHAT_ID`, `REMINDER_INTERVAL`), then
`main` checks the credentials, constructs a `WaterReminderBot`, and runs
`start_reminders`, which schedules a recurring reminder, sends a welcome
message and then polls a schedule once per second forever.

The embedding below translates the script into pure Lean functions.  Side
effects (console prints, the outbound HTTP POST, the schedule registration)
are recorded as an explicit event trace (`List Event`).  The network is an
input: each call of `requests.post` is given an `HttpOutcome` describing
what the real network would have returned (a status code and body text, or a
raised exception).  Python exceptions are modelled with an `Except` error
channel; a function whose Lean type has no error channel cannot raise, which
mirrors a Python function whose body is wrapped in a catch-all
`try/except`.  The infinite `while True` polling loop never returns
normally, so a run of it is described by the finite list of reminder firings
that happened (`RunSpec.ticks`) together with the exception that eventually
ended the loop (`RunSpec.term`).
-/

/-- Outcome of one physical HTTP POST: either a response with a status code
and body text, or a transport-level exception carrying its message. -/
inductive HttpOutcome where
  | response (status_code : Int) (text : String)
  | exception (message : String)
deriving DecidableEq

/-- Observable events of a program run: an outbound HTTP POST (with its URL,
form-encoded body and network outcome), a console log line (`print`), and
the registration of the recurring schedule entry
(`schedule.every(n).minutes.do(...)`). -/
inductive Event where
  | post (url : String) (data : List (String × String)) (outcome : HttpOutcome)
  | log (line : String)
  | schedule (minutes : Int)
deriving DecidableEq

/-- Python exceptions that this script can raise or catch. -/
inductive PyError where
  | valueError (message : String)
  | keyboardInterrupt
  | runtimeError (message : String)
deriving DecidableEq

/-- Process environment: a partial map from variable names to values,
modelling `os.environ`. -/
def Env : Type := String → Option String

/-- Count of HTTP POST events in a trace (delivery attempts). -/
def postCount (tr : List Event) : Nat :=
  (tr.filter fun e => match e with | Event.post _ _ _ => true | _ => false).length

/-- Count of console log events in a trace. -/
def logCount (tr : List Event) : Nat :=
  (tr.filter fun e => match e with | Event.log _ => true | _ => false).length

/-- True exactly on schedule-registration events. -/
def isScheduleEvent : Event → Bool
  | Event.schedule _ => true
  | _ => false

/-- True exactly on HTTP POST events. -/
def isPostEvent : Event → Bool
  | Event.post _ _ _ => true
  | _ => false

/-- The `text` form field of a POST event, if the event is a POST carrying
one. -/
def Event.postText : Event → Option String
  | Event.post _ data _ => (data.find? fun p => p.fst == "text").map Prod.snd
  | _ => none

/-- Accumulating loop of the digit-string parse for Python `int()`:
decimal digits with single underscores allowed between digits (as in
Python 3 numeric literals); a stray underscore or any non-digit character
is invalid.  The `afterUnd` flag records that the previous character was
an underscore still awaiting its digit. -/
def pyDigitsAux (acc : Nat) (afterUnd : Bool) : List Char → Option Nat
  | [] => if afterUnd then none else some acc
  | c :: rest =>
    if c.isDigit then pyDigitsAux (10 * acc + (c.toNat - 48)) false rest
    else if c = '_' && !afterUnd then pyDigitsAux acc true rest
    else none

/-- Entry point of the digit parse: the first character must be a digit. -/
def pyDigits : List Char → Option Nat
  | [] => none
  | c :: rest =>
    if c.isDigit then pyDigitsAux (c.toNat - 48) false rest else none

/-- Surrounding-whitespace strip, as Python `int()` applies to its string
argument before parsing. -/
def stripWs (l : List Char) : List Char :=
  ((l.dropWhile Char.isWhitespace).reverse.dropWhile Char.isWhitespace).reverse

/-- Model of Python `int(s)` for a string argument: strip surrounding
whitespace, optional single sign, then a valid digit string; `none` models
the `ValueError` raise. -/
def pythonInt (s : String) : Option Int :=
  match stripWs s.toList with
  | '+' :: rest => (pyDigits rest).map fun n => (n : Int)
  | '-' :: rest => (pyDigits rest).map fun n => -(n : Int)
  | l => (pyDigits l).map fun n => (n : Int)

/-- Module-load computation of `REMINDER_INTERVAL`:
`int(os.environ.get('REMINDER_INTERVAL', 60))`.  When the variable is
unset, `get` returns the integer `60` and `int` is the identity on it;
when set, the string is parsed and an unparsable value raises
`ValueError`. -/
def loadInterval : Option String → Except PyError Int
  | none => Except.ok 60
  | some s =>
    match pythonInt s with
    | some n => Except.ok n
    | none => Except.error (PyError.valueError
        ("invalid literal for int() with base 10: " ++ s))

/-- The three module-level configuration globals, as set at module load. -/
structure Config where
  bot_token : Option String
  chat_id : Option String
  reminder_interval : Int
deriving DecidableEq

/-- Module load: evaluate the three top-level assignments in source order.
`BOT_TOKEN` and `CHAT_ID` are plain `os.environ.get` lookups and cannot
raise; the `REMINDER_INTERVAL` line can raise `ValueError`, which aborts
the script before `main` ever runs. -/
def moduleLoad (env : Env) : Except PyError Config := do
  let bt := env "BOT_TOKEN"
  let ct := env "CHAT_ID"
  let iv ← loadInterval (env "REMINDER_INTERVAL")
  return { bot_token := bt, chat_id := ct, reminder_interval := iv }

/-- Python truthiness of an optional string: `None` and the empty string
are falsy, every other string is truthy. -/
def pyTruthy : Option String → Bool
  | none => false
  | some s => !(s == "")

/-- The bot object: `__init__` stores the token, the chat id, and the
derived base URL; no method ever assigns to these attributes again. -/
structure WaterReminderBot where
  bot_token : String
  chat_id : String
  base_url : String
deriving DecidableEq

/-- Constructor `WaterReminderBot.__init__`. -/
def WaterReminderBot.init (bot_token chat_id : String) : WaterReminderBot :=
  { bot_token := bot_token
    chat_id := chat_id
    base_url := "https://api.telegram.org/bot" ++ bot_token }

/-- Model of `requests.post(url, data=data)`: the wire behaviour is the
given `HttpOutcome`; a transport exception surfaces as a raised error, a
response surfaces as its `(status_code, text)` pair.  The URL and body are
recorded on the POST event by the caller. -/
def requests_post (outcome : HttpOutcome) : Except String (Int × String) :=
  match outcome with
  | HttpOutcome.response st tx => Except.ok (st, tx)
  | HttpOutcome.exception e => Except.error e

/-- Method `send_message`: build the URL and form data, perform exactly one
POST, and log the result.  The whole body sits inside
`try/except Exception`, so the function returns a plain trace — no error
channel — for every outcome, including transport exceptions. -/
def send_message (bot : WaterReminderBot) (message : String)
    (outcome : HttpOutcome) : List Event :=
  let url := bot.base_url ++ "/sendMessage"
  let data := [("chat_id", bot.chat_id), ("text", message),
               ("parse_mode", "HTML")]
  Event.post url data outcome ::
    match requests_post outcome with
    | Except.ok (status_code, text) =>
      if status_code == 200 then
        [Event.log ("✅ Message sent: " ++ message)]
      else
        [Event.log ("❌ Failed to send message: " ++ text)]
    | Except.error e =>
      [Event.log ("❌ Error sending message: " ++ e)]

/-- The fixed list of the 5 reminder message templates. -/
def messages : List String :=
  [ "💧 Time to drink water! Stay hydrated! 🚰",
    "🌊 Hydration check! Drink a glass of water now! 💙",
    "💦 Your body needs water! Take a sip! 🥤",
    "🚰 Water break time! Keep yourself healthy! 💧",
    "💙 Reminder: Drink water for better health! 🌊" ]

/-- Two-digit zero padding, as `strftime` applies to `%H` and `%M`. -/
def pad2 (n : Nat) : String :=
  if n < 10 then "0" ++ Nat.repr n else Nat.repr n

/-- Model of `datetime.now().strftime("%H:%M")` for a clock reading of
`h` hours and `m` minutes. -/
def strftimeHM (h m : Nat) : String :=
  pad2 h ++ ":" ++ pad2 m

/-- One firing of the reminder job: the index drawn by
`random.choice(messages)`, the wall clock at that instant, and the network
outcome of the resulting POST. -/
structure Tick where
  choice : Fin 5
  hour : Nat
  minute : Nat
  outcome : HttpOutcome
deriving DecidableEq

/-- The template selected by `random.choice` on a given tick. -/
def chosen_message (t : Tick) : String :=
  messages.get t.choice

/-- The composed reminder text: the `full_message` local of
`send_water_reminder`, built from the formatted time and the selected
template. -/
def full_message (t : Tick) : String :=
  "⏰ <b>" ++ strftimeHM t.hour t.minute ++ "</b>\n" ++ chosen_message t

/-- Method `send_water_reminder`: pick a random template, format the
current time, compose the full message and send it. -/
def send_water_reminder (bot : WaterReminderBot) (t : Tick) : List Event :=
  send_message bot (full_message t) t.outcome

/-- How the infinite polling loop ended: `KeyboardInterrupt` (Ctrl+C), or
some other uncaught `Exception` with message `e`.  The loop has no normal
exit. -/
inductive TermKind where
  | interrupt
  | fault (e : String)
deriving DecidableEq

/-- Environment of one run of `start_reminders`: the network outcome of the
welcome send, the reminder firings the loop performed, and the exception
that finally ended the loop. -/
structure RunSpec where
  welcomeOutcome : HttpOutcome
  ticks : List Tick
  term : TermKind
deriving DecidableEq

/-- The welcome text, with the interval interpolated as in the f-string. -/
def welcome_message (interval : Int) : String :=
  "🎉 <b>Water Reminder Bot Activated!</b>\n" ++
  "💧 You\x27ll receive reminders every " ++ toString interval ++
  " minutes.\n\n" ++
  "🔧 Commands:\n" ++
  "• Send \x27stop\x27 to pause\n" ++
  "• Send \x27start\x27 to resume"

/-- Everything `start_reminders` does before entering the `while True`
polling loop, in source order: two startup prints, the schedule
registration, then the welcome send. -/
def pre_loop_trace (bot : WaterReminderBot) (interval : Int)
    (run : RunSpec) : List Event :=
  [ Event.log "🚀 Water reminder bot started!",
    Event.log ("⏱️ Reminder interval: " ++ toString interval ++ " minutes"),
    Event.schedule interval ]
  ++ send_message bot (welcome_message interval) run.welcomeOutcome

/-- Events produced inside the polling loop: the reminder firings that
`schedule.run_pending()` executed, in order. -/
def loop_trace (bot : WaterReminderBot) (ticks : List Tick) : List Event :=
  (ticks.map (send_water_reminder bot)).flatten

/-- Method `start_reminders`: the pre-loop prefix followed by the loop
firings; the loop never returns normally, so the call always ends by
raising the loop-ending exception. -/
def start_reminders (bot : WaterReminderBot) (interval : Int)
    (run : RunSpec) : List Event × Except PyError Unit :=
  ( pre_loop_trace bot interval run ++ loop_trace bot run.ticks,
    match run.term with
    | TermKind.interrupt => Except.error PyError.keyboardInterrupt
    | TermKind.fault e => Except.error (PyError.runtimeError e) )

/-- The two diagnostic lines printed when a credential is missing. -/
def missing_config_trace : List Event :=
  [ Event.log "❌ Error: BOT_TOKEN and CHAT_ID environment variables are required!",
    Event.log "💡 Make sure you\x27ve set up these variables in Railway/Heroku" ]

namespace Script

/-- Function `main`: the credential safety check, bot construction, and the
`try/except` around `start_reminders`.  `KeyboardInterrupt` and every
other `Exception` are caught and logged, so `main` itself never raises
(its error channel is always `ok`). -/
def main (cfg : Config) (run : RunSpec) : List Event × Except PyError Unit :=
  if !pyTruthy cfg.bot_token || !pyTruthy cfg.chat_id then
    (missing_config_trace, Except.ok ())
  else
    let bot := WaterReminderBot.init (cfg.bot_token.getD "")
        (cfg.chat_id.getD "")
    let r := start_reminders bot cfg.reminder_interval run
    match r.snd with
    | Except.error PyError.keyboardInterrupt =>
      (r.fst ++ [Event.log "\n🛑 Bot stopped by user"], Except.ok ())
    | Except.error (PyError.runtimeError e) =>
      (r.fst ++ [Event.log ("❌ Error: " ++ e)], Except.ok ())
    | Except.error (PyError.valueError e) =>
      (r.fst ++ [Event.log ("❌ Error: " ++ e)], Except.ok ())
    | Except.ok u => (r.fst, Except.ok u)

/-- Whole-script run: module load (which can raise `ValueError` on a bad
`REMINDER_INTERVAL`), then `main`.  A module-load error aborts before any
print or HTTP call. -/
def runProgram (env : Env) (run : RunSpec) :
    List Event × Except PyError Unit :=
  match moduleLoad env with
  | Except.error e => ([], Except.error e)
  | Except.ok cfg => main cfg run

end Script

/-- Object-state view of `send_message`: the method body contains no
assignment to any attribute of `self`, so the object passes through
unchanged while the trace is produced. -/
def send_messageS (bot : WaterReminderBot) (message : String)
    (outcome : HttpOutcome) : WaterReminderBot × List Event :=
  (bot, send_message bot message outcome)

/-- Object-state view of `send_water_reminder`: no attribute of `self` is
assigned. -/
def send_water_reminderS (bot : WaterReminderBot) (t : Tick) :
    WaterReminderBot × List Event :=
  (bot, send_water_reminder bot t)

/-- Object-state view of `start_reminders`: no attribute of `self` is
assigned anywhere in the method, including inside the loop. -/
def start_remindersS (bot : WaterReminderBot) (interval : Int)
    (run : RunSpec) : WaterReminderBot × (List Event × Except PyError Unit) :=
  (bot, start_reminders bot interval run)

/-! Demonstration values used to instantiate the theorems below at concrete
inputs. -/

/-- A bot with demonstration credentials. -/
def demoBot : WaterReminderBot := WaterReminderBot.init "TOKEN" "CHAT"

/-- One concrete reminder firing: template 0, 14:30, successful POST. -/
def demoTick : Tick := ⟨0, 14, 30, HttpOutcome.response 200 "ok"⟩

/-- One concrete run: successful welcome send, one reminder firing, ended by
Ctrl+C. -/
def demoRun : RunSpec :=
  ⟨HttpOutcome.response 200 "ok", [demoTick], TermKind.interrupt⟩

/-- A fully valid concrete configuration. -/
def demoCfg : Config := ⟨some "TOKEN", some "CHAT", 60⟩

/-- A configuration with the credential missing. -/
def demoCfgMissing : Config := ⟨none, some "CHAT", 60⟩

/-- An environment whose `REMINDER_INTERVAL` is not a valid integer. -/
def demoEnvBad : Env :=
  fun k => if k == "REMINDER_INTERVAL" then some "sixty" else some "x"

/-! Helper lemmas about first characters of composed strings, used to tell
the differently prefixed log lines and message texts apart. -/

/-- Appending on the right preserves the first character. -/
theorem head_append_left (a s : String) (c : Char)
    (h : a.data.head? = some c) : (a ++ s).data.head? = some c := by
  cases hd : a.data with
  | nil => rw [hd] at h; cases h
  | cons x xs =>
    rw [hd] at h
    simp only [List.head?_cons, Option.some.injEq] at h
    simp [String.data_append, hd, h]

/-- Two strings with distinct first characters stay distinct under any
right extension. -/
theorem append_ne_of_head_ne (a b s t : String) (c d : Char)
    (hc : a.data.head? = some c) (hd : b.data.head? = some d)
    (hcd : c ≠ d) : a ++ s ≠ b ++ t := by
  intro h
  apply hcd
  have h1 := head_append_left a s c hc
  have h2 := head_append_left b t d hd
  rw [h, h2] at h1
  exact Option.some.inj h1.symm

/-! Trace lemmas shared by the claim theorems below. -/

/-- The `text` form field carried by the single POST of `send_message` is
exactly the message argument, for every network outcome. -/
theorem send_message_postTexts (bot : WaterReminderBot) (msg : String)
    (o : HttpOutcome) :
    (send_message bot msg o).filterMap Event.postText = [msg] := by
  cases o <;>
    simp [send_message, requests_post, Event.postText, List.find?] <;>
    split <;>
    simp [Event.postText]

/-- The POST texts produced inside the polling loop are exactly the
composed reminder messages of the fired ticks, in order. -/
theorem loop_trace_postTexts (bot : WaterReminderBot) (ticks : List Tick) :
    (loop_trace bot ticks).filterMap Event.postText
      = ticks.map full_message := by
  induction ticks with
  | nil => simp [loop_trace]
  | cons t ts ih =>
    simp only [loop_trace, List.map_cons, List.flatten_cons,
      List.filterMap_append]
    rw [show (ts.map (send_water_reminder bot)).flatten = loop_trace bot ts
      from rfl]
    rw [ih, send_water_reminder, send_message_postTexts]
    rfl

/-- The welcome text begins with the party-popper character. -/
theorem welcome_head (i : Int) :
    (welcome_message i).data.head? = some '🎉' :=
  head_append_left "🎉 <b>Water Reminder Bot Activated!</b>\n" _ '🎉' rfl

/-- Every composed reminder text begins with the alarm-clock character. -/
theorem full_message_head (t : Tick) :
    (full_message t).data.head? = some '⏰' :=
  head_append_left "⏰ <b>" _ '⏰' rfl

/-- A composed reminder text is never equal to the welcome text: their
first characters differ. -/
theorem full_message_ne_welcome (t : Tick) (i : Int) :
    full_message t ≠ welcome_message i := by
  intro h
  have h1 := full_message_head t
  have h2 := welcome_head i
  rw [h, h2] at h1
  exact absurd (Option.some.inj h1) (by decide)

/-- A `send_message` call registers no schedule entry. -/
theorem send_message_sched (bot : WaterReminderBot) (msg : String)
    (o : HttpOutcome) :
    (send_message bot msg o).countP isScheduleEvent = 0 := by
  cases o <;>
    simp [send_message, requests_post, isScheduleEvent, List.countP_cons] <;>
    split <;> simp [List.countP_cons, isScheduleEvent]

/-- The polling loop registers no schedule entry. -/
theorem loop_trace_sched (bot : WaterReminderBot) (ticks : List Tick) :
    (loop_trace bot ticks).countP isScheduleEvent = 0 := by
  induction ticks with
  | nil => simp [loop_trace]
  | cons t ts ih =>
    simp only [loop_trace, List.map_cons, List.flatten_cons,
      List.countP_append]
    rw [show (ts.map (send_water_reminder bot)).flatten = loop_trace bot ts
      from rfl]
    rw [ih, send_water_reminder, send_message_sched]

/-- C1: every invocation of `send_water_reminder` composes its delivered
text from one of the 5 fixed templates — each template selected for some
value of the random choice — prefixed with the current wall-clock time
formatted by `strftime("%H:%M")`, and passes exactly this composed text to
`send_message` (it is the `text` form field of the resulting POST). -/
theorem send_water_reminder_composes (bot : WaterReminderBot) (t : Tick) :
    send_water_reminder bot t
      = send_message bot
          ("⏰ <b>" ++ strftimeHM t.hour t.minute ++ "</b>\n"
            ++ chosen_message t)
          t.outcome
  ∧ chosen_message t ∈ messages
  ∧ messages.length = 5
  ∧ (∀ i : Fin 5, ∃ c : Fin 5, ∀ h m o,
      chosen_message ⟨c, h, m, o⟩ = messages.get i)
  ∧ (send_water_reminder bot t).filterMap Event.postText
      = ["⏰ <b>" ++ strftimeHM t.hour t.minute ++ "</b>\n"
          ++ chosen_message t] := by
  refine ⟨rfl, List.get_mem messages t.choice.1 t.choice.2, rfl, ?_, ?_⟩
  · intro i
    exact ⟨i, fun h m o => rfl⟩
  · rw [send_water_reminder, send_message_postTexts]
    rfl

/-- C2: for every message and every outcome of the HTTP POST (status 200,
any non-200 status, or a transport-level exception), `send_message` makes
exactly one delivery attempt and logs exactly one outcome line (success,
failure, or error, respectively).  Its return type has no error channel:
the catch-all `try/except` means no outcome can raise past it, so the
calling loop always continues — the trace of a run with a further tick is
the failed tick's events followed, unchanged, by the next tick's. -/
theorem send_message_single_attempt (bot : WaterReminderBot) (msg : String) :
    (∀ outcome, postCount (send_message bot msg outcome) = 1)
  ∧ (∀ outcome, logCount (send_message bot msg outcome) = 1)
  ∧ (∀ st tx, Event.log (if st == 200 then "✅ Message sent: " ++ msg
        else "❌ Failed to send message: " ++ tx)
        ∈ send_message bot msg (HttpOutcome.response st tx))
  ∧ (∀ e, Event.log ("❌ Error sending message: " ++ e)
        ∈ send_message bot msg (HttpOutcome.exception e))
  ∧ (∀ (t : Tick) (ts : List Tick),
      loop_trace bot (t :: ts)
        = send_water_reminder bot t ++ loop_trace bot ts) := by
  refine ⟨?_, ?_, ?_, ?_, fun t ts => rfl⟩
  · intro o
    cases o <;> simp [send_message, requests_post, postCount] <;>
      split <;> simp
  · intro o
    cases o <;> simp [send_message, requests_post, logCount] <;>
      split <;> simp
  · intro st tx
    cases hb : (st == 200) <;> simp [send_message, requests_post, hb]
  · intro e
    simp [send_message, requests_post]

/-- C3: when `BOT_TOKEN` or `CHAT_ID` is falsy, `main` prints the two
diagnostic lines and returns at once — its whole trace is the diagnostic,
which contains no HTTP POST — and otherwise it constructs the bot from the
two credentials and runs `start_reminders`, whose events (followed only by
the shutdown log line) make up the whole trace. -/
theorem main_credential_guard (cfg : Config) (run : RunSpec) :
    ((pyTruthy cfg.bot_token = false ∨ pyTruthy cfg.chat_id = false) →
      Script.main cfg run = (missing_config_trace, Except.ok ())
      ∧ postCount (Script.main cfg run).fst = 0)
  ∧ (pyTruthy cfg.bot_token = true → pyTruthy cfg.chat_id = true →
      ∃ line, (Script.main cfg run).fst
        = (start_reminders
            (WaterReminderBot.init (cfg.bot_token.getD "")
              (cfg.chat_id.getD ""))
            cfg.reminder_interval run).fst ++ [Event.log line]) := by
  constructor
  · intro h
    have hcond : (!pyTruthy cfg.bot_token || !pyTruthy cfg.chat_id) = true := by
      rcases h with h | h <;> simp [h]
    constructor
    · simp [Script.main, hcond]
    · simp [Script.main, hcond, postCount, missing_config_trace]
  · intro h1 h2
    have hcond : (!pyTruthy cfg.bot_token || !pyTruthy cfg.chat_id)
        = false := by
      simp [h1, h2]
    cases ht : run.term <;>
      simp [Script.main, hcond, start_reminders, ht]

/-- C3 witness: at a configuration with `BOT_TOKEN` unset, `main` produces
exactly the diagnostic trace; at a fully valid configuration, its trace is
a `start_reminders` run of the constructed bot plus one shutdown line. -/
theorem main_credential_guard_witness :
    (Script.main demoCfgMissing demoRun = (missing_config_trace, Except.ok ()))
  ∧ ∃ line, (Script.main demoCfg demoRun).fst
      = (start_reminders (WaterReminderBot.init "TOKEN" "CHAT") 60
          demoRun).fst ++ [Event.log line] :=
  ⟨((main_credential_guard demoCfgMissing demoRun).1 (Or.inl rfl)).1,
    (main_credential_guard demoCfg demoRun).2 rfl rfl⟩

/-- C4 counterexample: at a concrete valid configuration the schedule
registration sits at index 2 of the pre-loop trace and the welcome POST at
index 3, so the welcome send does NOT happen before the recurring task is
scheduled — the source registers the schedule entry first. -/
theorem welcome_before_schedule_cex :
    (pre_loop_trace demoBot 60 demoRun).findIdx isScheduleEvent = 2
  ∧ (pre_loop_trace demoBot 60 demoRun).findIdx isPostEvent = 3
  ∧ ¬ ((pre_loop_trace demoBot 60 demoRun).findIdx isPostEvent
        < (pre_loop_trace demoBot 60 demoRun).findIdx isScheduleEvent) :=
  ⟨by decide, by decide, by decide⟩

/-- C4 (amended): for any valid configuration, `start_reminders` sends
exactly one welcome message before entering the 1-second polling loop, and
this welcome send happens AFTER the recurring reminder task is scheduled:
the trace is the pre-loop prefix followed by the loop events, the pre-loop
prefix contains exactly one POST whose text is the welcome message and
which comes after the schedule registration, and no POST of the loop ever
carries the welcome text again. -/
theorem start_reminders_welcome_once (bot : WaterReminderBot)
    (interval : Int) (run : RunSpec) :
    (start_reminders bot interval run).fst
      = pre_loop_trace bot interval run ++ loop_trace bot run.ticks
  ∧ postCount (pre_loop_trace bot interval run) = 1
  ∧ (pre_loop_trace bot interval run).filterMap Event.postText
      = [welcome_message interval]
  ∧ (∃ u rest, pre_loop_trace bot interval run
      = Event.log "🚀 Water reminder bot started!"
        :: Event.log ("⏱️ Reminder interval: " ++ toString interval
            ++ " minutes")
        :: Event.schedule interval
        :: Event.post u
            [("chat_id", bot.chat_id), ("text", welcome_message interval),
             ("parse_mode", "HTML")] run.welcomeOutcome
        :: rest)
  ∧ (∀ s ∈ (loop_trace bot run.ticks).filterMap Event.postText,
      s ≠ welcome_message interval) := by
  refine ⟨rfl, ?_, ?_, ?_, ?_⟩
  · cases h : run.welcomeOutcome <;>
      simp [pre_loop_trace, send_message, requests_post, postCount, h] <;>
      split <;> simp
  · simp only [pre_loop_trace, List.filterMap_append]
    rw [send_message_postTexts]
    simp [Event.postText]
  · refine ⟨bot.base_url ++ "/sendMessage", ?_⟩
    cases h : run.welcomeOutcome <;>
      simp [pre_loop_trace, send_message, h]
  · intro s hs
    rw [loop_trace_postTexts] at hs
    rcases List.mem_map.mp hs with ⟨t, _, rfl⟩
    exact full_message_ne_welcome t interval

/-- C4 witness: at the concrete run with one fired reminder, that
reminder's composed text is a POST text of the loop and indeed differs
from the welcome text. -/
theorem start_reminders_welcome_once_witness :
    full_message demoTick
      ∈ (loop_trace demoBot demoRun.ticks).filterMap Event.postText
  ∧ full_message demoTick ≠ welcome_message 60 :=
  ⟨by decide,
    (start_reminders_welcome_once demoBot 60 demoRun).2.2.2.2
      (full_message demoTick) (by decide)⟩

/-- C5: every delivery of `send_message` is one HTTP POST to
`https://api.telegram.org/bot<token>/sendMessage` whose form body is
exactly the fields `chat_id`, `text` and `parse_mode=HTML`, and the
success line is logged exactly when the response status code is 200. -/
theorem send_message_wire_format (token chat msg : String)
    (outcome : HttpOutcome) :
    (send_message (WaterReminderBot.init token chat) msg outcome).head?
      = some (Event.post
          ("https://api.telegram.org/bot" ++ token ++ "/sendMessage")
          [("chat_id", chat), ("text", msg), ("parse_mode", "HTML")]
          outcome)
  ∧ postCount (send_message (WaterReminderBot.init token chat) msg outcome)
      = 1
  ∧ ((Event.log ("✅ Message sent: " ++ msg)
        ∈ send_message (WaterReminderBot.init token chat) msg outcome)
      ↔ ∃ tx, outcome = HttpOutcome.response 200 tx) := by
  refine ⟨?_, ?_, ?_⟩
  · cases outcome <;>
      simp [send_message, WaterReminderBot.init, String.append_assoc]
  · cases outcome <;> simp [send_message, requests_post, postCount] <;>
      split <;> simp
  · cases outcome with
    | response st tx =>
      by_cases h : st = 200
      · subst h
        simp [send_message, requests_post]
      · have hb : (st == 200) = false := by simpa using h
        simp [send_message, requests_post, hb, h]
        exact append_ne_of_head_ne _ _ _ _ '✅' '❌' rfl rfl (by decide)
    | exception e =>
      simp [send_message, requests_post]
      exact append_ne_of_head_ne _ _ _ _ '✅' '❌' rfl rfl (by decide)

/-- C6 counterexample: a loaded configuration need not satisfy
`intervalMinutes ≥ 1` — with `REMINDER_INTERVAL` set to `"0"` the source
loads the interval 0 without any validation. -/
theorem interval_invariant_cex :
    loadInterval (some "0") = Except.ok 0 ∧ ¬ (1 ≤ (0 : Int)) :=
  ⟨rfl, by decide⟩

/-- C6 (amended): when `REMINDER_INTERVAL` is unset the interval defaults
to 60 minutes; when it is set to a string that parses as an integer `n`,
the loaded interval is `n` itself, with no positivity validation, so
`intervalMinutes ≥ 1` is not guaranteed for user-supplied values. -/
theorem interval_default_spec :
    loadInterval none = Except.ok 60
  ∧ (∀ s n, pythonInt s = some n → loadInterval (some s) = Except.ok n) := by
  refine ⟨rfl, ?_⟩
  intro s n h
  simp [loadInterval, h]

/-- C6 witness: the string `"30"` parses as 30 and loads as interval 30. -/
theorem interval_default_spec_witness :
    pythonInt "30" = some 30 ∧ loadInterval (some "30") = Except.ok 30 :=
  ⟨by decide, interval_default_spec.2 "30" 30 (by decide)⟩

/-- C7: `main` catches a `KeyboardInterrupt` ending the loop and logs the
clean-shutdown line, catches any other exception and logs the error line,
and in all cases returns normally (error channel `ok`) without re-raising;
the schedule entry is registered at most once, so the loop is never
restarted. -/
theorem main_shutdown_handling (cfg : Config) (run : RunSpec) :
    (Script.main cfg run).snd = Except.ok ()
  ∧ (pyTruthy cfg.bot_token = true → pyTruthy cfg.chat_id = true →
      (run.term = TermKind.interrupt →
        (Script.main cfg run).fst.getLast?
          = some (Event.log "\n🛑 Bot stopped by user"))
      ∧ (∀ e, run.term = TermKind.fault e →
        (Script.main cfg run).fst.getLast?
          = some (Event.log ("❌ Error: " ++ e))))
  ∧ (Script.main cfg run).fst.countP isScheduleEvent ≤ 1 := by
  refine ⟨?_, ?_, ?_⟩
  · by_cases hb : (!pyTruthy cfg.bot_token || !pyTruthy cfg.chat_id) = true
    · simp [Script.main, hb]
    · rw [Bool.not_eq_true] at hb
      cases ht : run.term <;>
        simp [Script.main, hb, start_reminders, ht]
  · intro h1 h2
    have hcond : (!pyTruthy cfg.bot_token || !pyTruthy cfg.chat_id)
        = false := by
      simp [h1, h2]
    constructor
    · intro ht
      simp [Script.main, hcond, start_reminders, ht]
    · intro e ht
      simp [Script.main, hcond, start_reminders, ht]
  · by_cases hb : (!pyTruthy cfg.bot_token || !pyTruthy cfg.chat_id) = true
    · simp [Script.main, hb, missing_config_trace, List.countP_cons,
        isScheduleEvent]
    · rw [Bool.not_eq_true] at hb
      have hpre : (pre_loop_trace
          (WaterReminderBot.init (cfg.bot_token.getD "") (cfg.chat_id.getD ""))
          cfg.reminder_interval run).countP isScheduleEvent = 1 := by
        cases h : run.welcomeOutcome <;>
          simp [pre_loop_trace, send_message, requests_post, h,
            List.countP_cons, List.countP_append, isScheduleEvent] <;>
          split <;> simp [List.countP_cons, isScheduleEvent]
      cases ht : run.term <;>
        simp [Script.main, hb, start_reminders, ht, List.countP_append,
          List.countP_cons, hpre, loop_trace_sched, isScheduleEvent]

/-- C7 witness: at the valid demonstration configuration and an
interrupt-ended run, the trace ends with the clean-shutdown log line. -/
theorem main_shutdown_handling_witness :
    pyTruthy demoCfg.bot_token = true
  ∧ demoRun.term = TermKind.interrupt
  ∧ (Script.main demoCfg demoRun).fst.getLast?
      = some (Event.log "\n🛑 Bot stopped by user") :=
  ⟨rfl, rfl, ((main_shutdown_handling demoCfg demoRun).2.1 rfl rfl).1 rfl⟩

/-- C8: the configuration held by the bot is fixed at construction —
`__init__` stores the token, the chat id and the derived base URL — and
`send_message`, `send_water_reminder` and `start_reminders` leave every
attribute of the object unchanged (their bodies contain no attribute
assignment). -/
theorem bot_config_immutable (token chat msg : String) (o : HttpOutcome)
    (t : Tick) (interval : Int) (run : RunSpec) :
    (WaterReminderBot.init token chat).bot_token = token
  ∧ (WaterReminderBot.init token chat).chat_id = chat
  ∧ (WaterReminderBot.init token chat).base_url
      = "https://api.telegram.org/bot" ++ token
  ∧ (∀ b : WaterReminderBot, (send_messageS b msg o).fst = b)
  ∧ (∀ b : WaterReminderBot, (send_water_reminderS b t).fst = b)
  ∧ (∀ b : WaterReminderBot, (start_remindersS b interval run).fst = b) :=
  ⟨rfl, rfl, rfl, fun _ => rfl, fun _ => rfl, fun _ => rfl⟩

/-- C9: if `REMINDER_INTERVAL` is set to a string that is not a valid
integer, the `int(...)` on the module-level assignment raises `ValueError`
at module load, so the program aborts with an empty trace — before the
missing-credential check can print anything and before any HTTP call. -/
theorem bad_interval_aborts_module_load (env : Env) (run : RunSpec)
    (s : String) (hset : env "REMINDER_INTERVAL" = some s)
    (hbad : pythonInt s = none) :
    (Script.runProgram env run).fst = []
  ∧ (Script.runProgram env run).snd
      = Except.error (PyError.valueError
          ("invalid literal for int() with base 10: " ++ s))
  ∧ postCount (Script.runProgram env run).fst = 0 := by
  have hload : moduleLoad env = Except.error (PyError.valueError
      ("invalid literal for int() with base 10: " ++ s)) := by
    simp [moduleLoad, hset, loadInterval, hbad, Except.bind]
  refine ⟨?_, ?_, ?_⟩ <;> simp [Script.runProgram, hload, postCount]

/-- C9 witness: an environment with `REMINDER_INTERVAL` set to `"sixty"`
(and both credentials present) aborts at module load with an empty
trace. -/
theorem bad_interval_aborts_module_load_witness :
    demoEnvBad "REMINDER_INTERVAL" = some "sixty"
  ∧ pythonInt "sixty" = none
  ∧ (Script.runProgram demoEnvBad demoRun).fst = [] :=
  ⟨rfl, by decide,
    (bad_interval_aborts_module_load demoEnvBad demoRun "sixty" rfl
      (by decide)).1⟩

/-- C10: a `BOT_TOKEN` or `CHAT_ID` that is set to the empty string is
treated by `main` exactly like an absent one: the run is identical to the
run with the variable unset, prints the diagnostic, returns without
entering the loop, and makes no HTTP call. -/
theorem empty_credential_like_missing (other : Option String) (iv : Int)
    (run : RunSpec) :
    (Script.main ⟨some "", other, iv⟩ run = Script.main ⟨none, other, iv⟩ run)
  ∧ (Script.main ⟨other, some "", iv⟩ run = Script.main ⟨other, none, iv⟩ run)
  ∧ Script.main ⟨some "", other, iv⟩ run = (missing_config_trace, Except.ok ())
  ∧ Script.main ⟨other, some "", iv⟩ run = (missing_config_trace, Except.ok ())
  ∧ postCount missing_config_trace = 0 := by
  refine ⟨rfl, ?_, rfl, ?_, rfl⟩ <;>
    cases other <;>
    simp [Script.main, pyTruthy, missing_config_trace]
